import Mathlib

/-!
Shallow embedding of the badge-issuance API glue code:
`apps/backpack/serializers_v2.py` and `apps/issuer/api.py`.

Model instances are plain records, the database is a list of badge
instances, and request handlers are pure functions threading the
database explicitly.  External collaborators that the two source files
call into (the ORM lookup by entity id, `BadgeInstance.revoke`, the
badge-check helper, JSON rendering of related objects, the ISO-8601
parser) are either taken as parameters or modelled from the spec, and
each such definition says so in its doc comment.
-/

namespace Badgr

/-- A `BadgeInstance` (assertion) row, with the fields the two source
files read or write.  Timestamps are ticks (`Nat`). -/
structure BadgeInstance where
  entity_id : String
  badgeclass : String
  issuer : String
  recipient_identifier : String
  revoked : Bool
  revocation_reason : Option String
  expires_at : Option Nat
  acceptance : String
  updated_at : Nat
  user : Option String
  deriving DecidableEq, Repr

/-- The database of badge instances, as a plain list. -/
abbrev DB := List BadgeInstance

/-! ## BackpackImportSerializerV2.validate (serializers_v2.py lines 144-148)

DRF semantics relevant here: a field with `required=False` that is not in
the request is absent from `attrs`, so `attrs.values()` ranges over the
provided fields only; `sum(1 if v else 0 for v in attrs.values())` counts
the provided fields whose value is Python-truthy. -/

/-- Validated import attributes.  `none` means the field was not provided;
`some v` means it was provided with value `v`.  The `assertion` field is a
JSON dict, modelled as an association list. -/
structure ImportAttrs where
  url : Option String
  image : Option String
  assertion : Option (List (String × String))
  deriving DecidableEq, Repr

/-- Python truthiness of a string value (`""` is falsy). -/
def pyTruthyStr (s : String) : Bool := s ≠ ""

/-- Python truthiness of a dict value (`{}` is falsy). -/
def pyTruthyDict (d : List (String × String)) : Bool := d ≠ []

/-- The count `sum(1 if v else 0 for v in attrs.values())` over the provided fields. -/
def truthyCount (a : ImportAttrs) : Nat :=
  (match a.url with | some s => if pyTruthyStr s then 1 else 0 | none => 0) +
  (match a.image with | some s => if pyTruthyStr s then 1 else 0 | none => 0) +
  (match a.assertion with | some d => if pyTruthyDict d then 1 else 0 | none => 0)

/-- Number of fields provided (present in `attrs`), regardless of
truthiness.  This is the reading of "set" that the claim's wording uses;
the code does not compute it. -/
def providedCount (a : ImportAttrs) : Nat :=
  (match a.url with | some _ => 1 | none => 0) +
  (match a.image with | some _ => 1 | none => 0) +
  (match a.assertion with | some _ => 1 | none => 0)

/-- Source `BackpackImportSerializerV2.validate` (lines 144-148): raise a
validation error unless exactly one provided value is truthy. -/
def importValidate (attrs : ImportAttrs) : Except String ImportAttrs :=
  if truthyCount attrs ≠ 1 then
    .error "Must provide only one of 'url', 'image' or 'assertion'."
  else
    .ok attrs

/-! ## BadgeInstance.revoke and the ORM save, modelled from the spec

`BadgeInstance.revoke` lives in `issuer/models.py`, which is not in the
sources; the views call it. -/

/-- Modelled from the spec: `BadgeInstance.revoke(reason)` (issuer models,
not in the sources).  Spec §3: "revocation is irreversible and requires a
reason"; §7/§6: revoking an already-revoked assertion raises a validation
error whose message is surfaced to the caller.  On success it marks the
instance revoked with the given reason. -/
def BadgeInstance.revoke (b : BadgeInstance) (reason : String) :
    Except String BadgeInstance :=
  if b.revoked then
    .error "Assertion is already revoked"
  else
    .ok { b with revoked := true, revocation_reason := some reason }

/-- Modelled from the spec: the ORM `save()` of an instance into the
database — replace the row with the same entity id, or insert a new row
when none exists. -/
def saveInstance (db : DB) (b : BadgeInstance) : DB :=
  if db.any (fun r => r.entity_id = b.entity_id) then
    db.map (fun r => if r.entity_id = b.entity_id then b else r)
  else
    db ++ [b]

/-- Modelled from the spec: `get_object(request, entity_id=...)` of the
entity framework — look the instance up by its opaque entity id, raising
`Http404` (here `none`) when it does not exist. -/
def getObjectById (db : DB) (entity_id : String) : Option BadgeInstance :=
  db.find? (fun r => r.entity_id = entity_id)

/-! ## BatchAssertionsRevoke (api.py lines 269-337) -/

/-- One entry of the request body: a `{entityId, revocationReason}` pair,
each key possibly absent (`revocation.get(..., None)`). -/
structure RevocationEntry where
  entityId : Option String
  revocationReason : Option String
  deriving DecidableEq, Repr

/-- The per-item response dict built by `_process_revoke`: starts as
`{"revoked": False}` and accumulates `entityId`, `revocationReason`, and
either a failure `reason` or `revoked: True`. -/
structure RevokeResult where
  revoked : Bool
  entityId : Option String := none
  revocationReason : Option String := none
  reason : Option String := none
  deriving DecidableEq, Repr

/-- Source `BatchAssertionsRevoke._process_revoke` (lines 280-312).  The request
environment contributes `hasPerm` (`self.has_object_permissions`); the
database gives `get_object` and receives the mutation done by
`assertion.revoke`.  Returns the per-item dict and the database after the
call.

NOTE (lines 303-304 of the source): when `has_object_permissions` fails
the code builds `dict(response, reason="permission denied or object not
found")` but does not `return` it — the dict is discarded and control
falls through to `assertion.revoke`.  The embedding reproduces that. -/
def processRevoke (hasPerm : BadgeInstance → Bool) (db : DB)
    (revocation : RevocationEntry) : RevokeResult × DB :=
  let response : RevokeResult := { revoked := false }
  match revocation.entityId with
  | none => ({ response with reason := some "entityId is required" }, db)
  | some entity_id =>
    let response := { response with entityId := some entity_id }
    match revocation.revocationReason with
    | none => ({ response with reason := some "revocationReason is required" }, db)
    | some revocation_reason =>
      let response := { response with revocationReason := some revocation_reason }
      match getObjectById db entity_id with
      | none => ({ response with reason := some "permission denied or object not found" }, db)
      | some assertion =>
        -- lines 303-304: the permission-denied dict is built and discarded
        let _discarded :=
          if ¬ hasPerm assertion then
            some { response with reason := some "permission denied or object not found" }
          else none
        match assertion.revoke revocation_reason with
        | .error msg => ({ response with reason := some msg }, db)
        | .ok revokedAssertion =>
            ({ response with revoked := true }, saveInstance db revokedAssertion)

/-- Source `BatchAssertionsRevoke.post` (lines 329-337): process every entry of
the request body in order, threading the database, and always answer
HTTP 200 with the per-item result list. -/
def batchRevokePost (hasPerm : BadgeInstance → Bool) (db : DB)
    (entries : List RevocationEntry) : List RevokeResult × DB :=
  match entries with
  | [] => ([], db)
  | e :: rest =>
    let (r, db1) := processRevoke hasPerm db e
    let (rs, db2) := batchRevokePost hasPerm db1 rest
    (r :: rs, db2)

/-! ## BackpackImportSerializerV2.create (serializers_v2.py lines 150-160) -/

/-- The REST-framework validation errors `create` can raise. -/
inductive ImportError where
  /-- `RestframeworkValidationError([{'name': ..., 'description': ...}])`
  raised on a duplicate badge (line 157). -/
  | detail (name : String) (description : String)
  /-- `RestframeworkValidationError(e.messages)` re-raised from a
  `DjangoValidationError` (line 159). -/
  | messages (msgs : List String)
  deriving DecidableEq, Repr

/-- Outcome of `BadgeCheckHelper.get_or_create_assertion` (issuer helpers,
not in the sources; taken as a parameter): either a
`DjangoValidationError` with its messages, or `(instance, created)`. -/
def HelperOutcome := Except (List String) (BadgeInstance × Bool)

/-- Source `BackpackImportSerializerV2.create` (lines 150-160): delegate to the
badge-check helper; when the instance already existed (`not created`),
set its acceptance to `"Accepted"`, save it, and raise the
duplicate-badge error; re-raise any `DjangoValidationError` as a
REST-framework error carrying the same messages.  Returns the response
and the database after any save. -/
def importCreate (helper : HelperOutcome) (db : DB) :
    Except ImportError BadgeInstance × DB :=
  match (helper : Except (List String) (BadgeInstance × Bool)) with
  | .error msgs => (.error (.messages msgs), db)
  | .ok (inst, created) =>
    if created then
      (.ok inst, db)
    else
      let inst := { inst with acceptance := "Accepted" }
      let db := saveInstance db inst
      (.error (.detail "DUPLICATE_BADGE" "You already have this badge in your backpack"), db)

/-! ## BadgeInstanceList.get_queryset (api.py lines 352-362) -/

/-- Source `BadgeInstanceList.get_queryset`: assertions of a single badge class,
always filtered to `revoked=False`, optionally restricted to a list of
recipient identifiers (`request.query_params.getlist('recipient')`, an
empty list when absent).  The view exposes no other query filter. -/
def badgeInstanceListQueryset (db : DB) (badgeclass : String)
    (recipients : List String) : List BadgeInstance :=
  let queryset := db.filter
    (fun b => b.badgeclass = badgeclass ∧ b.revoked = false)
  if recipients ≠ [] then
    queryset.filter (fun b => b.recipient_identifier ∈ recipients)
  else
    queryset

/-! ## IssuerBadgeInstanceList.get_queryset (api.py lines 419-430) -/

/-- Flag truthiness, `'1'`/`'true'` case-insensitive: the code tests
`request.query_params.get(flag, '').lower() not in ['1', 'true']`. -/
def paramTruthy (s : String) : Bool :=
  s.toLower = "1" ∨ s.toLower = "true"

/-- The query parameters `IssuerBadgeInstanceList.get_queryset` reads.
`recipient` is `getlist` (empty when absent); the flags are `get` with
default `''`. -/
structure IssuerListParams where
  recipient : List String := []
  include_expired : String := ""
  include_revoked : String := ""
  deriving DecidableEq, Repr

/-- Source `IssuerBadgeInstanceList.get_queryset` (lines 419-430): assertions of
one issuer, filtered by recipients when given; unless `include_expired`
is truthy, keep only `expires_at >= now` or `expires_at` null; unless
`include_revoked` is truthy, keep only `revoked=False`.  `now` is the
server clock tick at query time. -/
def issuerBadgeInstanceListQueryset (db : DB) (issuer : String) (now : Nat)
    (p : IssuerListParams) : List BadgeInstance :=
  let queryset := db.filter (fun b => b.issuer = issuer)
  let queryset :=
    if p.recipient ≠ [] then
      queryset.filter (fun b => b.recipient_identifier ∈ p.recipient)
    else queryset
  let queryset :=
    if ¬ paramTruthy p.include_expired then
      queryset.filter (fun b =>
        match b.expires_at with
        | some t => now ≤ t
        | none => true)
    else queryset
  let queryset :=
    if ¬ paramTruthy p.include_revoked then
      queryset.filter (fun b => b.revoked = false)
    else queryset
  queryset

/-! ## BadgeInstanceDetail.delete (api.py lines 500-518) -/

/-- Response of the delete handler. -/
inductive DeleteResponse where
  /-- `Response(status=HTTP_404_NOT_FOUND)` on permission failure. -/
  | notFound
  /-- `raise ValidationError({field: msg})` → HTTP 400. -/
  | fieldError (field : String) (msg : String)
  /-- `raise ValidationError(e.message)` re-raised from the revoke → HTTP 400. -/
  | messageError (msg : String)
  /-- `Response(status=HTTP_200_OK, data=...)` with the updated instance. -/
  | ok (data : BadgeInstance)
  deriving DecidableEq, Repr

/-- Source `BadgeInstanceDetail.delete` (lines 500-518): 404 when
`has_object_permissions` fails; 400 naming `revocation_reason` when the
reason is absent or empty (`if not revocation_reason`); re-raise the
revoke's Django validation error as a 400; otherwise 200 with the updated
representation.  Returns the response and the database after any revoke. -/
def badgeInstanceDelete (hasPerm : BadgeInstance → Bool) (db : DB)
    (assertion : BadgeInstance) (revocation_reason : Option String) :
    DeleteResponse × DB :=
  if ¬ hasPerm assertion then
    (.notFound, db)
  else
    match revocation_reason with
    | none => (.fieldError "revocation_reason" "This field is required", db)
    | some reason =>
      if reason = "" then
        (.fieldError "revocation_reason" "This field is required", db)
      else
        match assertion.revoke reason with
        | .error msg => (.messageError msg, db)
        | .ok revokedAssertion =>
            (.ok revokedAssertion, saveInstance db revokedAssertion)

/-! ## BackpackAssertionAcceptanceSerializerV2 (serializers_v2.py lines 62-73) -/

/-- The serializer's single field:
`ChoiceField(choices=[BadgeInstance.ACCEPTANCE_ACCEPTED])`, so the only
value that validates is the literal `"Accepted"`. -/
def acceptanceChoiceValid (value : String) : Bool :=
  value = "Accepted"

/-- Outcome of the acceptance update: the returned instance, the database
after `instance.save()`, and the users on which `publish()` was called,
in call order. -/
structure AcceptanceUpdateOutcome where
  inst : BadgeInstance
  db : DB
  publishedUsers : List String
  deriving Repr

/-- Source `BackpackAssertionAcceptanceSerializerV2.update` (lines 65-73): set
`instance.acceptance = 'Accepted'`, save, and call `owner.publish()` when
`instance.user` is present. -/
def acceptanceUpdate (db : DB) (inst : BadgeInstance) :
    AcceptanceUpdateOutcome :=
  let inst := { inst with acceptance := "Accepted" }
  let db := saveInstance db inst
  let owner := inst.user
  { inst := inst
    db := db
    publishedUsers := match owner with | some u => [u] | none => [] }

/-! ## BackpackAssertionSerializerV2.to_representation (serializers_v2.py lines 43-59) -/

/-- The JSON returned by `get_json(include_extra=..., use_canonical_id=...)`
on a cached related object (issuer models, not in the sources): modelled
as a record of the object it renders and the two flags of the call. -/
structure RelatedJson where
  obj : String
  include_extra : Bool
  use_canonical_id : Bool
  deriving DecidableEq, Repr

/-- The embedded badge-class JSON with its optional nested issuer JSON
(written into `instance_data_pointer['badgeclass']` and, within it,
`['issuer']`). -/
structure EmbeddedBadgeClass where
  badgeclassJson : RelatedJson
  issuerJson : Option RelatedJson
  deriving DecidableEq, Repr

/-- The per-assertion representation: the base fields produced by the
parent serializer (opaque here) plus the optional embedded badge class. -/
structure AssertionRepr where
  base : BadgeInstance
  badgeclass : Option EmbeddedBadgeClass := none
  deriving DecidableEq, Repr

/-- The envelope: a bare object when the serializer is nested under a
parent, `{'result': [...]}` when used standalone. -/
inductive ReprEnvelope where
  | bare (r : AssertionRepr)
  | enveloped (result : List AssertionRepr)
  deriving DecidableEq, Repr

/-- Source `BackpackAssertionSerializerV2.to_representation` (lines 43-59):
when `'badgeclass' ∈ expands`, write
`instance.cached_badgeclass.get_json(include_extra=True, use_canonical_id=True)`
into the representation (into `representation['result'][0]` standalone,
into the bare dict when nested), and when additionally
`'issuer' ∈ expands`, nest the issuer JSON inside that badge-class JSON. -/
def toRepresentation (hasParent : Bool) (expands : List String)
    (inst : BadgeInstance) : ReprEnvelope :=
  let representation : AssertionRepr := { base := inst }
  let representation :=
    if "badgeclass" ∈ expands then
      { representation with
        badgeclass := some
          { badgeclassJson :=
              { obj := inst.badgeclass, include_extra := true, use_canonical_id := true }
            issuerJson :=
              if "issuer" ∈ expands then
                some { obj := inst.issuer, include_extra := true, use_canonical_id := true }
              else none } }
    else representation
  if hasParent then .bare representation else .enveloped [representation]

/-! ## AssertionsChangedSince (api.py lines 594-645) -/

/-- An OAuth2 access token row as the `Q` expression of
`AssertionsChangedSince.get_queryset` traverses it:
`user__oauth2_provider_accesstoken` joined to its `application__user` and
to its `accesstokenscope__scope` rows. -/
structure AccessTokenRow where
  user : String
  applicationUser : String
  scopes : List String
  deriving DecidableEq, Repr

/-- An `IssuerStaff` membership row (`issuer__issuerstaff__user`). -/
structure IssuerStaffRow where
  issuer : String
  user : String
  deriving DecidableEq, Repr

/-- The relational state the changed-since query reads besides the
assertion rows. -/
structure ChangedSinceEnv where
  tokens : List AccessTokenRow
  staff : List IssuerStaffRow
  deriving Repr

/-- The `Q` expression of `AssertionsChangedSince.get_queryset`
(lines 614-616) applied to one assertion: the assertion's backpack owner
holds an access token issued by an application owned by the requesting
user and carrying a `r:backpack`/`rw:backpack` scope (both conditions on
the same token join), or the requesting user is staff of the assertion's
issuer. -/
def visibleTo (env : ChangedSinceEnv) (requester : String)
    (b : BadgeInstance) : Bool :=
  (match b.user with
   | some owner =>
     env.tokens.any (fun t =>
       t.user = owner ∧ t.applicationUser = requester ∧
       t.scopes.any (fun s => s = "r:backpack" ∨ s = "rw:backpack"))
   | none => false)
  || env.staff.any (fun s => s.issuer = b.issuer ∧ s.user = requester)

/-- Source `AssertionsChangedSince.get_queryset` (lines 611-622): the visible
assertions, and when `since` is given also `updated_at__gt=since`
(strict).  `.distinct()` only collapses join duplicates and does not
change membership; the list model has no join duplicates. -/
def changedSinceQueryset (db : DB) (env : ChangedSinceEnv)
    (requester : String) (since : Option Nat) : List BadgeInstance :=
  db.filter (fun b =>
    visibleTo env requester b &&
    match since with
    | some s => decide (b.updated_at > s)
    | none => true)

/-- The successful changed-since payload: the tick at which
`PaginatedAssertionsSinceSerializer.__init__` captured `timestamp`
(line 598), the tick at which the SQL query ran (inside the
`super().__init__` call that follows), and the serialized results. -/
structure ChangedSinceOk where
  timestampTick : Nat
  queryTick : Nat
  results : List BadgeInstance
  deriving Repr

/-- Response of `AssertionsChangedSince.get`. -/
inductive ChangedSinceResponse where
  /-- `V2ErrorSerializer` envelope returned with HTTP 400 (lines 630-636). -/
  | badRequest (field : String) (msg : String)
  /-- HTTP 200 with the paginated results and the `timestamp` field. -/
  | ok (payload : ChangedSinceOk)
  deriving Repr

/-- Source `AssertionsChangedSince.get` (lines 624-645).  `parse` is
`dateutil.parser.isoparse` (external library), `none` standing for the
`ValueError` it raises on malformed input.  Time is a tick counter
threaded explicitly: the handler starts at `startTick`, the serializer's
`__init__` captures `timestamp` at the current tick and only afterwards
runs the SQL query, one tick later, over the database state at that
tick (`dbAt`). -/
def assertionsChangedSinceGet (parse : String → Option Nat)
    (dbAt : Nat → DB) (env : ChangedSinceEnv) (requester : String)
    (sinceParam : Option String) (startTick : Nat) : ChangedSinceResponse :=
  let run : Option Nat → ChangedSinceResponse := fun since =>
    -- PaginatedAssertionsSinceSerializer.__init__ (line 598): take the
    -- timestamp now, before the SQL query is run in super().__init__
    let timestampTick := startTick
    let queryTick := timestampTick + 1
    .ok { timestampTick := timestampTick
          queryTick := queryTick
          results := changedSinceQueryset (dbAt queryTick) env requester since }
  match sinceParam with
  | none => run none
  | some s =>
    match parse s with
    | none => .badRequest "since" "must be ISO-8601 format with time zone"
    | some since => run (some since)

/-! ## Helper lemmas about the modelled ORM save -/

theorem find_map_saved (l : List BadgeInstance) (b : BadgeInstance)
    (h : l.any (fun r => r.entity_id = b.entity_id) = true) :
    (l.map (fun r => if r.entity_id = b.entity_id then b else r)).find?
      (fun r => r.entity_id = b.entity_id) = some b := by
  induction l with
  | nil => simp at h
  | cons r rs ih =>
    by_cases hr : r.entity_id = b.entity_id
    · simp [List.find?, hr]
    · simp only [List.any_cons, Bool.or_eq_true, decide_eq_true_eq] at h
      rcases h with h | h
      · exact absurd h hr
      · simp only [List.map_cons, if_neg hr, List.find?, decide_eq_false hr]
        exact ih h

theorem find_append_saved (l : List BadgeInstance) (b : BadgeInstance)
    (h : l.any (fun r => r.entity_id = b.entity_id) = false) :
    (l ++ [b]).find? (fun r => r.entity_id = b.entity_id) = some b := by
  induction l with
  | nil => simp [List.find?]
  | cons r rs ih =>
    simp only [List.any_cons, Bool.or_eq_false_iff, decide_eq_false_iff_not] at h
    simp only [List.cons_append, List.find?, decide_eq_false h.1, Bool.false_eq_true,
      if_false]
    exact ih (by simpa using h.2)

/-- After a `save`, looking the instance up by its entity id finds the
saved row. -/
theorem getObjectById_saveInstance (db : DB) (b : BadgeInstance) :
    getObjectById (saveInstance db b) b.entity_id = some b := by
  unfold getObjectById saveInstance
  by_cases h : List.any db (fun r => r.entity_id = b.entity_id) = true
  · simp only [h, if_true]
    exact find_map_saved db b h
  · rw [Bool.not_eq_true] at h
    simp only [h, Bool.false_eq_true, if_false]
    exact find_append_saved db b h

/-- Saving an instance whose entity id is already in the database keeps
the number of rows: no second row is ever created. -/
theorem saveInstance_length_of_mem (db : DB) (b : BadgeInstance)
    (h : List.any db (fun r => r.entity_id = b.entity_id) = true) :
    (saveInstance db b).length = List.length db := by
  unfold saveInstance
  simp [h]

/-! ## Theorems for the claims -/

/-- A concrete import input with two provided fields, one truthy
(`url`) and one falsy (the empty `assertion` dict). -/
def exTwoProvided : ImportAttrs :=
  { url := some "http://example.com/assertion", image := none, assertion := some [] }

/-- C2 counterexample: the claim says `validate` raises a validation
error whenever two or more of {url, image, assertion} are set, but on an
input with two fields set — a URL plus an empty (falsy) assertion dict —
`validate` accepts, because line 146 counts Python-truthy values, not
provided fields. -/
theorem importValidate_accepts_two_provided_fields :
    providedCount exTwoProvided = 2 ∧
    importValidate exTwoProvided = .ok exTwoProvided := by
  constructor
  · rfl
  · rfl

/-- C2 (amended): `BackpackImportSerializerV2.validate` accepts exactly
when precisely one of {url, image, assertion} carries a truthy value (a
provided but falsy value counts as absent), and otherwise raises the
validation error. -/
theorem importValidate_ok_iff_one_truthy (attrs : ImportAttrs) :
    (importValidate attrs = .ok attrs ↔ truthyCount attrs = 1) ∧
    (importValidate attrs =
        .error "Must provide only one of 'url', 'image' or 'assertion'." ↔
      truthyCount attrs ≠ 1) := by
  unfold importValidate
  by_cases h : truthyCount attrs = 1 <;> simp [h]

/-- C10: `validate` counts truthiness rather than presence — with a
truthy `url` and a provided-but-falsy `assertion` dict the input passes
validation, and an input whose only provided field is a falsy
`assertion` dict fails validation. -/
theorem importValidate_counts_truthiness (u : String) (d : List (String × String))
    (hu : pyTruthyStr u = true) (hd : pyTruthyDict d = false) :
    importValidate { url := some u, image := none, assertion := some d } =
      .ok { url := some u, image := none, assertion := some d } ∧
    importValidate { url := none, image := none, assertion := some d } =
      .error "Must provide only one of 'url', 'image' or 'assertion'." := by
  unfold importValidate truthyCount
  simp [hu, hd]

/-- A concrete import input whose only provided field is falsy. -/
def exOnlyFalsy : ImportAttrs :=
  { url := none, image := none, assertion := some [] }

/-- Witness for C10 at `u = "http://example.com/assertion"`, `d = []`. -/
theorem importValidate_counts_truthiness_witness :
    importValidate exTwoProvided = .ok exTwoProvided ∧
    importValidate exOnlyFalsy =
      .error "Must provide only one of 'url', 'image' or 'assertion'." :=
  importValidate_counts_truthiness "http://example.com/assertion" []
    (by decide) (by decide)

/-- A concrete unrevoked assertion used in concrete evaluations. -/
def exAssertionA : BadgeInstance :=
  { entity_id := "A"
    badgeclass := "bc1"
    issuer := "issuer1"
    recipient_identifier := "recipient@example.com"
    revoked := false
    revocation_reason := none
    expires_at := none
    acceptance := "Accepted"
    updated_at := 0
    user := some "owner1" }

/-- C1: the claim says an entry fails with reason `"permission denied or
object not found"` when the object-permission check fails, but
`_process_revoke` (api.py lines 303-304) builds that failure dict and
drops it without returning it.  Concretely: with `has_object_permissions`
answering `False` for every object, a batch of one well-formed entry for
the existing assertion `"A"` is reported `revoked: true` with no failure
reason, and the assertion really is revoked in the database. -/
theorem processRevoke_ignores_object_permission_check :
    (batchRevokePost (fun _ => false) [exAssertionA]
        [{ entityId := some "A", revocationReason := some "spam" }]).1 =
      [{ revoked := true, entityId := some "A", revocationReason := some "spam" }] ∧
    (batchRevokePost (fun _ => false) [exAssertionA]
        [{ entityId := some "A", revocationReason := some "spam" }]).2 =
      [{ exAssertionA with revoked := true, revocation_reason := some "spam" }] := by
  exact ⟨rfl, rfl⟩

/-- C3: `BackpackImportSerializerV2.create` — when the badge-check helper
reports an already-existing instance (`created = False`), the instance's
acceptance is set to `"Accepted"` and persisted, the call raises the
duplicate-badge error (code `DUPLICATE_BADGE`) instead of returning, and
when the instance was already a database row no second row is created;
a `DjangoValidationError` from retrieval is re-raised as a REST-framework
validation error carrying the same messages. -/
theorem importCreate_spec (db : DB) (inst : BadgeInstance) (msgs : List String) :
    ((importCreate (Except.ok (inst, false)) db).1 =
        .error (.detail "DUPLICATE_BADGE" "You already have this badge in your backpack") ∧
      (importCreate (Except.ok (inst, false)) db).2 =
        saveInstance db { inst with acceptance := "Accepted" } ∧
      getObjectById (importCreate (Except.ok (inst, false)) db).2 inst.entity_id =
        some { inst with acceptance := "Accepted" } ∧
      (db.any (fun r => r.entity_id = inst.entity_id) = true →
        (importCreate (Except.ok (inst, false)) db).2.length = db.length)) ∧
    importCreate (Except.error msgs) db = (.error (.messages msgs), db) := by
  refine ⟨⟨rfl, rfl, ?_, ?_⟩, rfl⟩
  · exact getObjectById_saveInstance db { inst with acceptance := "Accepted" }
  · intro h
    exact saveInstance_length_of_mem db { inst with acceptance := "Accepted" } h

/-- Witness for C3: re-importing `exAssertionA` when it is already the
only database row raises the duplicate-badge error and keeps a single
row. -/
theorem importCreate_spec_witness :
    (importCreate (Except.ok (exAssertionA, false)) [exAssertionA]).1 =
      .error (.detail "DUPLICATE_BADGE" "You already have this badge in your backpack") ∧
    (importCreate (Except.ok (exAssertionA, false)) [exAssertionA]).2.length = 1 ∧
    importCreate (Except.error ["bad json"]) [exAssertionA] =
      (.error (.messages ["bad json"]), [exAssertionA]) := by
  have h := importCreate_spec [exAssertionA] exAssertionA ["bad json"]
  exact ⟨h.1.1, h.1.2.2.2 (by decide), h.2⟩

/-- C6: `BadgeInstanceDetail.delete` — HTTP 404 when the
object-permission check fails; HTTP 400 naming `revocation_reason` when
the reason is absent or empty; HTTP 400 carrying the revoke error's
message when the assertion is already revoked; otherwise the assertion is
revoked, persisted, and returned with HTTP 200. -/
theorem badgeInstanceDelete_spec (hasPerm : BadgeInstance → Bool) (db : DB)
    (assertion : BadgeInstance) :
    (hasPerm assertion = false →
      ∀ reason, badgeInstanceDelete hasPerm db assertion reason = (.notFound, db)) ∧
    (hasPerm assertion = true →
      badgeInstanceDelete hasPerm db assertion none =
        (.fieldError "revocation_reason" "This field is required", db) ∧
      badgeInstanceDelete hasPerm db assertion (some "") =
        (.fieldError "revocation_reason" "This field is required", db)) ∧
    (∀ r, hasPerm assertion = true → r ≠ "" → assertion.revoked = true →
      badgeInstanceDelete hasPerm db assertion (some r) =
        (.messageError "Assertion is already revoked", db)) ∧
    (∀ r, hasPerm assertion = true → r ≠ "" → assertion.revoked = false →
      badgeInstanceDelete hasPerm db assertion (some r) =
        (.ok { assertion with revoked := true, revocation_reason := some r },
         saveInstance db { assertion with revoked := true, revocation_reason := some r })) := by
  refine ⟨?_, ?_, ?_, ?_⟩
  · intro h reason
    simp [badgeInstanceDelete, h]
  · intro h
    constructor <;> simp [badgeInstanceDelete, h]
  · intro r h hr hrev
    simp [badgeInstanceDelete, h, hr, BadgeInstance.revoke, hrev]
  · intro r h hr hrev
    simp [badgeInstanceDelete, h, hr, BadgeInstance.revoke, hrev]

/-- Witness for C6 at the unrevoked assertion `exAssertionA`, reason
`"spam"`, and both outcomes of the permission check. -/
theorem badgeInstanceDelete_spec_witness :
    badgeInstanceDelete (fun _ => true) [exAssertionA] exAssertionA (some "spam") =
      (.ok { exAssertionA with revoked := true, revocation_reason := some "spam" },
       saveInstance [exAssertionA]
         { exAssertionA with revoked := true, revocation_reason := some "spam" }) ∧
    badgeInstanceDelete (fun _ => false) [exAssertionA] exAssertionA (some "spam") =
      (.notFound, [exAssertionA]) ∧
    badgeInstanceDelete (fun _ => true) [exAssertionA] exAssertionA none =
      (.fieldError "revocation_reason" "This field is required", [exAssertionA]) := by
  have h := badgeInstanceDelete_spec (fun _ => true) [exAssertionA] exAssertionA
  have h2 := badgeInstanceDelete_spec (fun _ => false) [exAssertionA] exAssertionA
  exact ⟨h.2.2.2 "spam" rfl (by decide) rfl, h2.1 rfl (some "spam"), (h.2.1 rfl).1⟩

/-- C7: `BackpackAssertionAcceptanceSerializerV2` — the choice field
accepts only the literal `"Accepted"`; `update` leaves the instance with
acceptance `"Accepted"` whatever its prior state, persists it, and calls
the owning user's `publish()` exactly once when there is an owner and
never otherwise. -/
theorem acceptanceUpdate_spec (db : DB) (inst : BadgeInstance) :
    (∀ v, acceptanceChoiceValid v = true ↔ v = "Accepted") ∧
    (acceptanceUpdate db inst).inst.acceptance = "Accepted" ∧
    (acceptanceUpdate db inst).db =
      saveInstance db { inst with acceptance := "Accepted" } ∧
    getObjectById (acceptanceUpdate db inst).db inst.entity_id =
      some { inst with acceptance := "Accepted" } ∧
    (acceptanceUpdate db inst).publishedUsers =
      (match inst.user with | some u => [u] | none => []) := by
  refine ⟨?_, rfl, rfl, ?_, rfl⟩
  · intro v
    simp [acceptanceChoiceValid]
  · exact getObjectById_saveInstance db { inst with acceptance := "Accepted" }

/-- Membership in a conditionally applied filter step. -/
theorem mem_filter_if (c : Prop) [Decidable c] (l : List BadgeInstance)
    (p : BadgeInstance → Bool) (b : BadgeInstance) :
    (b ∈ if c then l.filter p else l) ↔ b ∈ l ∧ (¬ c ∨ p b = true) := by
  by_cases h : c <;> simp [h, List.mem_filter]

/-- C9: `BadgeInstanceList.get_queryset` — the per-badge-class assertion
listing unconditionally excludes revoked assertions: for every value of
its only filtering query parameter (the recipient list), membership
requires `revoked = false`; there is no parameter that can relax this. -/
theorem badgeInstanceList_queryset_mem (db : DB) (badgeclass : String)
    (recipients : List String) (b : BadgeInstance) :
    b ∈ badgeInstanceListQueryset db badgeclass recipients ↔
      b ∈ db ∧ b.badgeclass = badgeclass ∧ b.revoked = false ∧
      (recipients = [] ∨ b.recipient_identifier ∈ recipients) := by
  unfold badgeInstanceListQueryset
  rw [mem_filter_if]
  simp only [List.mem_filter, decide_eq_true_eq, ne_eq, not_not]
  tauto

/-- C4: `IssuerBadgeInstanceList.get_queryset` — membership requires the
issuer match; the recipient restriction applies exactly when the
`recipient` list is nonempty; unless `include_expired` is `"1"`/`"true"`
case-insensitively, assertions with a non-null `expires_at` in the past
are excluded; unless `include_revoked` is such a string, revoked
assertions are excluded — the two flags acting independently. -/
theorem issuerBadgeInstanceList_queryset_mem (db : DB) (issuer : String)
    (now : Nat) (p : IssuerListParams) (b : BadgeInstance) :
    b ∈ issuerBadgeInstanceListQueryset db issuer now p ↔
      b ∈ db ∧ b.issuer = issuer ∧
      (p.recipient = [] ∨ b.recipient_identifier ∈ p.recipient) ∧
      ((p.include_expired.toLower = "1" ∨ p.include_expired.toLower = "true") ∨
        b.expires_at = none ∨ ∃ t, b.expires_at = some t ∧ now ≤ t) ∧
      ((p.include_revoked.toLower = "1" ∨ p.include_revoked.toLower = "true") ∨
        b.revoked = false) := by
  unfold issuerBadgeInstanceListQueryset
  rw [mem_filter_if, mem_filter_if, mem_filter_if]
  simp only [List.mem_filter, decide_eq_true_eq, ne_eq, not_not, paramTruthy]
  cases hx : b.expires_at <;> simp [hx] <;> tauto

/-- C8: `BackpackAssertionSerializerV2.to_representation` — the badge
class JSON (rendered with `include_extra=True, use_canonical_id=True`) is
embedded exactly when `'badgeclass'` is in the request's expands list,
written into the bare object when the serializer is nested and into
`result[0]` when standalone; the issuer JSON is nested inside the
embedded badge class exactly when `'issuer'` is also requested, and
`'issuer'` without `'badgeclass'` embeds neither. -/
theorem toRepresentation_spec (hasParent : Bool) (expands : List String)
    (inst : BadgeInstance) :
    ∃ r : AssertionRepr,
      toRepresentation hasParent expands inst =
        (if hasParent then .bare r else .enveloped [r]) ∧
      r.base = inst ∧
      r.badgeclass =
        (if "badgeclass" ∈ expands then
          some { badgeclassJson :=
                   { obj := inst.badgeclass
                     include_extra := true
                     use_canonical_id := true }
                 issuerJson :=
                   if "issuer" ∈ expands then
                     some { obj := inst.issuer
                            include_extra := true
                            use_canonical_id := true }
                   else none }
         else none) := by
  unfold toRepresentation
  by_cases hb : "badgeclass" ∈ expands <;> simp only [hb, if_true, if_false] <;>
    exact ⟨_, rfl, rfl, by simp [hb]⟩

/-- C5: `AssertionsChangedSince.get` — an unparseable `since` yields the
structured 400 error naming the `since` field; a parseable `since` yields
a success payload whose results are exactly the assertions visible to the
requesting user (backpack owner via a token of the requester's
application carrying a backpack scope, or issuer staff) with `updated_at`
strictly greater than `since`, and whose `timestamp` is captured strictly
before the tick at which the database query runs. -/
theorem assertionsChangedSince_spec (parse : String → Option Nat)
    (dbAt : Nat → DB) (env : ChangedSinceEnv) (requester : String)
    (startTick : Nat) :
    (∀ s, parse s = none →
      assertionsChangedSinceGet parse dbAt env requester (some s) startTick =
        .badRequest "since" "must be ISO-8601 format with time zone") ∧
    (∀ s since, parse s = some since →
      ∃ payload,
        assertionsChangedSinceGet parse dbAt env requester (some s) startTick =
          .ok payload ∧
        payload.timestampTick < payload.queryTick ∧
        ∀ b, b ∈ payload.results ↔
          b ∈ dbAt payload.queryTick ∧ visibleTo env requester b = true ∧
            since < b.updated_at) := by
  constructor
  · intro s hs
    simp [assertionsChangedSinceGet, hs]
  · intro s since hs
    refine ⟨{ timestampTick := startTick
              queryTick := startTick + 1
              results := changedSinceQueryset (dbAt (startTick + 1)) env requester
                (some since) },
      by simp [assertionsChangedSinceGet, hs], Nat.lt_succ_self _, ?_⟩
    intro b
    simp [changedSinceQueryset, List.mem_filter, and_assoc]

/-- A parser accepting only the string `"2020-01-01T00:00:00Z"`, mapped
to tick 10; everything else is a `ValueError`. -/
def exParse : String → Option Nat :=
  fun s => if s = "2020-01-01T00:00:00Z" then some 10 else none

/-- A token/staff environment in which the requester `"alice"` owns an
application that issued `"owner1"` a backpack-scoped token. -/
def exEnv : ChangedSinceEnv :=
  { tokens := [{ user := "owner1", applicationUser := "alice", scopes := ["rw:backpack"] }]
    staff := [] }

/-- A constant database history holding one assertion of `"owner1"`
updated at tick 42. -/
def exDbAt : Nat → DB := fun _ => [{ exAssertionA with updated_at := 42 }]

/-- Witness for C5: a malformed `since` gets the 400, and the parseable
`since` gets the characterized success payload. -/
theorem assertionsChangedSince_spec_witness :
    assertionsChangedSinceGet exParse exDbAt exEnv "alice" (some "not-a-date") 5 =
      .badRequest "since" "must be ISO-8601 format with time zone" ∧
    ∃ payload,
      assertionsChangedSinceGet exParse exDbAt exEnv "alice"
          (some "2020-01-01T00:00:00Z") 5 = .ok payload ∧
      payload.timestampTick < payload.queryTick ∧
      ∀ b, b ∈ payload.results ↔
        b ∈ exDbAt payload.queryTick ∧ visibleTo exEnv "alice" b = true ∧
          10 < b.updated_at := by
  have h := assertionsChangedSince_spec exParse exDbAt exEnv "alice" 5
  exact ⟨h.1 "not-a-date" (by decide), h.2 "2020-01-01T00:00:00Z" 10 (by decide)⟩

end Badgr
